import Mathlib

/-!
Shallow embedding of `src/Main.py` (AI collaboration / task scheduling demo).

Python data is modelled as follows: `str` as `String`, `int` as `Int`, `None`
as `Option.none`, lists as `List`, durations as `Nat`.  Code that can raise a
Python exception is modelled in `Except PyErr`.  Mutation is modelled by
explicit state passing: a method that mutates an object returns the updated
value.
-/

namespace Main

/-- Python exceptions that the embedded code can raise. -/
inductive PyErr where
  | typeError : PyErr
deriving DecidableEq

/-- ASCII lowercasing of one character, as Python `str.lower` does on the
ASCII strings this program uses. -/
def lowerChar (c : Char) : Char :=
  if 'A' ≤ c ∧ c ≤ 'Z' then Char.ofNat (c.toNat + 32) else c

/-- Model of Python `str.lower()` (ASCII). -/
def pyLower (s : String) : String :=
  ⟨s.data.map lowerChar⟩

/-- Predicate `needleLeads needle hay`: `hay` starts with `needle`. -/
def needleLeads : List Char → List Char → Bool
  | [], _ => true
  | _ :: _, [] => false
  | a :: as, b :: bs => a == b && needleLeads as bs

/-- Predicate `hasSubList needle hay`: `needle` occurs contiguously inside `hay`
(Python `needle in hay` on strings). -/
def hasSubList (needle : List Char) : List Char → Bool
  | [] => needleLeads needle []
  | c :: cs => needleLeads needle (c :: cs) || hasSubList needle cs

/-- Python `needle in hay` for strings: substring containment. -/
def pyStrContains (hay needle : String) : Bool :=
  hasSubList needle.data hay.data

/-- The `Task` objects of `Main.py`.  A task's `dependencies` field holds
other tasks (the Python objects hold references); the constructor argument
order and the extra fields initialised by `__init__` are mirrored by
`Task.init` below. -/
inductive Task where
  | mk (id : Int) (description : String) (priority : Int) (deadline : Option String)
      (dependencies : List Task) (status : String) (assigned_to : Option String)
      (is_completed : Bool) : Task

def Task.id : Task → Int
  | .mk i _ _ _ _ _ _ _ => i

def Task.description : Task → String
  | .mk _ d _ _ _ _ _ _ => d

def Task.priority : Task → Int
  | .mk _ _ p _ _ _ _ _ => p

def Task.deadline : Task → Option String
  | .mk _ _ _ dl _ _ _ _ => dl

def Task.dependencies : Task → List Task
  | .mk _ _ _ _ deps _ _ _ => deps

def Task.status : Task → String
  | .mk _ _ _ _ _ s _ _ => s

def Task.assigned_to : Task → Option String
  | .mk _ _ _ _ _ _ a _ => a

def Task.is_completed : Task → Bool
  | .mk _ _ _ _ _ _ _ c => c

/-- Constructor `Task.__init__`: `dependencies = dependencies if dependencies else []`
(`None` and `[]` both give `[]`), `status = "Pending"`,
`assigned_to = None`, `is_completed = False`. -/
def Task.init (id : Int) (description : String) (priority : Int)
    (deadline : Option String) (dependencies : Option (List Task)) : Task :=
  .mk id description priority deadline (dependencies.getD []) "Pending" none false

def Task.setPriority : Task → Int → Task
  | .mk i d _ dl deps s a c, p => .mk i d p dl deps s a c

def Task.setStatus : Task → String → Task
  | .mk i d p dl deps _ a c, s => .mk i d p dl deps s a c

def Task.setAssignedTo : Task → Option String → Task
  | .mk i d p dl deps s _ c, a => .mk i d p dl deps s a c

def Task.setCompleted : Task → Bool → Task
  | .mk i d p dl deps s a _, c => .mk i d p dl deps s a c

/-- Method `Task.is_ready_to_execute`:
`all(dep.is_completed for dep in self.dependencies)`. -/
def Task.is_ready_to_execute (t : Task) : Bool :=
  t.dependencies.all (fun dep => dep.is_completed)

/-- The `AI` objects of `Main.py`.  `__init__` sets `tasks = []`,
`is_busy = False`, `performance_record = []` (see `AI.init`). -/
structure AI where
  name : String
  role : String
  capabilities : List String
  tasks : List Task
  is_busy : Bool
  performance_record : List (String × Nat)

def AI.init (name role : String) (capabilities : List String) : AI :=
  { name := name, role := role, capabilities := capabilities,
    tasks := [], is_busy := false, performance_record := [] }

/-- Method `AI.record_performance`: appends `(task.description, time_taken)` to
`self.performance_record`. -/
def AI.record_performance (ai : AI) (task : Task) (time_taken : Nat) : AI :=
  { ai with performance_record := ai.performance_record ++ [(task.description, time_taken)] }

/-- The per-worker test in `assign_task`'s list comprehension:
`task.description.lower() in ai.capabilities and not ai.is_busy`.
`ai.capabilities` is a Python *list*, so `in` is list membership
(equality with some element), not substring search. -/
def dispatchPred (task : Task) (ai : AI) : Bool :=
  ai.capabilities.contains (pyLower task.description) && !ai.is_busy

namespace TaskManager

/-- The candidate list `suitable_ais` computed inside
`TaskManager.assign_task` (the global `ais` list is passed explicitly). -/
def suitable_ais (ais : List AI) (task : Task) : List AI :=
  ais.filter (fun ai => dispatchPred task ai)

end TaskManager

/-- Modelled from the spec (for comparison with `TaskManager.suitable_ais`):
"every worker whose capability set contains a capability that is a
substring-match (case-insensitive) of the task's description, AND whose busy
flag is false". -/
def candidate_spec (ais : List AI) (task : Task) : List AI :=
  ais.filter (fun ai =>
    ai.capabilities.any (fun cap => pyStrContains (pyLower task.description) (pyLower cap))
      && !ai.is_busy)

/-- Workers of `ais` paired with positions, so that `random.choice` picking an *object*
from `suitable_ais` can be modelled as picking the object together with its
position in the global `ais` list (the position identifies which worker's
queue `chosen_ai.tasks.append` mutates). -/
def enumAIs : Nat → List AI → List (Nat × AI)
  | _, [] => []
  | n, a :: l => (n, a) :: enumAIs (n + 1) l

/-- The suitable workers of `assign_task`, each with its index in `ais`. -/
def suitableEnum (ais : List AI) (task : Task) : List (Nat × AI) :=
  (enumAIs 0 ais).filter (fun q => dispatchPred task q.2)

/-- Fallback worker used only to make `List.getD` total; every use below is
guarded by a proof that the index is in range. -/
def dummyAI : AI :=
  AI.init "" "" []

/-- The state `TaskManager.assign_task` can mutate: the task it was given and
the global worker list. -/
structure DispatchResult where
  task : Task
  ais : List AI

namespace TaskManager

/-- Method `TaskManager.assign_task(task)`.  `random.choice(suitable_ais)` is
modelled by an external seed `r`: the chosen worker is the one at position
`r % len(suitable_ais)` of the candidate list, so every candidate is
reachable for some `r`.  In Python, `chosen_ai.tasks.append(task)` enqueues a
reference to the very object whose `assigned_to`/`status` are mutated next,
so the queued element carries the post-assignment fields. -/
def assign_task (r : Nat) (ais : List AI) (task : Task) : DispatchResult :=
  let suitable := suitable_ais ais task
  if !suitable.isEmpty && task.is_ready_to_execute then
    let se := suitableEnum ais task
    let q := se.getD (r % se.length) (0, dummyAI)
    let chosen := q.2
    let task1 := (task.setAssignedTo (some chosen.name)).setStatus "Assigned"
    { task := task1,
      ais := ais.set q.1 { chosen with tasks := chosen.tasks ++ [task1] } }
  else
    -- both `elif` branches (`waiting for dependencies`, `no suitable AI`)
    -- only log; the task and the workers are untouched
    { task := task, ais := ais }

/-- Method `TaskManager.update_task_status` on the manager's task list: a `for` loop
that sets `status` on the first task with a matching id and `break`s. -/
def update_tasks_first : List Task → Int → String → List Task
  | [], _, _ => []
  | t :: rest, task_id, new_status =>
    if t.id == task_id then t.setStatus new_status :: rest
    else t :: update_tasks_first rest task_id new_status

end TaskManager

/-- The `TaskManager` object: it owns only `self.tasks`. -/
structure TaskManager where
  tasks : List Task

def TaskManager.update_task_status (tm : TaskManager) (task_id : Int) (new_status : String) : TaskManager :=
  ⟨TaskManager.update_tasks_first tm.tasks task_id new_status⟩

/-- The whole mutable program state relevant to the manager's operations: the
task manager plus the global `ais` list. -/
structure SysState where
  task_manager : TaskManager
  ais : List AI

/-- Operation `update_task_status` as a step on the whole program state: its body reads
and writes only `self.tasks`; the global `ais` list is never referenced. -/
def SysState.update_task_status (s : SysState) (task_id : Int) (new_status : String) : SysState :=
  { s with task_manager := s.task_manager.update_task_status task_id new_status }

/-- Python `time.struct_time` (only the field the program mentions). -/
structure StructTime where
  tm_yday : Int
deriving DecidableEq

/-- Models `time.strptime(s, "%Y-%m-%d")` only to the extent the program can
observe it: the program immediately subtracts two `struct_time` values, which
raises `TypeError` (see `structTimeSub`), so no field of this result is ever
read.  Parsing failures (`ValueError` on malformed dates) are not modelled;
every date below is well-formed. -/
def time_strptime (date_string format : String) : StructTime :=
  ⟨0⟩

/-- Python `time.struct_time` defines no subtraction: for every pair of
operands, `a - b` raises `TypeError: unsupported operand type(s) for -`. -/
def structTimeSub (a b : StructTime) : Except PyErr StructTime :=
  .error .typeError

/-- One loop body of `TaskManager.dynamic_prioritization` for one task, with
`time.localtime()` passed in as `now`. -/
def prioritizeOne (now : StructTime) (task : Task) : Except PyErr Task :=
  if task.status == "Pending" && (match task.deadline with
      | none => false
      | some s => !s.isEmpty) then do
    let diff ← structTimeSub (time_strptime (task.deadline.getD "") "%Y-%m-%d") now
    let days_to_deadline := diff.tm_yday
    if days_to_deadline ≤ 2 then pure (task.setPriority 1)
    else if days_to_deadline ≤ 5 then pure (task.setPriority 2)
    else pure task
  else
    pure task

/-- Method `TaskManager.dynamic_prioritization`: the `for` loop over `self.tasks`.
An exception raised at some task propagates; every earlier task is one the
guard skipped, so the partially-mutated Python list equals the input list. -/
def TaskManager.dynamic_prioritization (now : StructTime) (tm : TaskManager) : Except PyErr TaskManager := do
  let tasks ← tm.tasks.mapM (prioritizeOne now)
  pure ⟨tasks⟩

/-- Python runtime values, as far as `save_state`/`load_state` handle them:
the fields of a task's `__dict__` are ints, strings, `None`, bools, lists,
and (inside `dependencies`) `Task` objects. -/
inductive PyVal where
  | vint (n : Int) : PyVal
  | vstr (s : String) : PyVal
  | vnone : PyVal
  | vbool (b : Bool) : PyVal
  | vlist (l : List PyVal) : PyVal
  | vtask (t : Task) : PyVal

def pyOptStr : Option String → PyVal
  | none => .vnone
  | some s => .vstr s

/-- Snapshot of `task.__dict__`: the attributes `__init__` assigned, in insertion order. -/
def Task.toDictVal (t : Task) : List (String × PyVal) :=
  [("id", .vint t.id),
   ("description", .vstr t.description),
   ("priority", .vint t.priority),
   ("deadline", pyOptStr t.deadline),
   ("dependencies", .vlist (t.dependencies.map .vtask)),
   ("status", .vstr t.status),
   ("assigned_to", pyOptStr t.assigned_to),
   ("is_completed", .vbool t.is_completed)]

mutual

/-- What `json.dump` accepts: ints, strings, `None`, bools, and lists of
acceptable values.  A `Task` object makes it raise `TypeError`
("Object of type Task is not JSON serializable"). -/
def jsonable : PyVal → Bool
  | .vint _ => true
  | .vstr _ => true
  | .vnone => true
  | .vbool _ => true
  | .vlist l => jsonableList l
  | .vtask _ => false

def jsonableList : List PyVal → Bool
  | [] => true
  | v :: vs => jsonable v && jsonableList vs

end

namespace TaskManager

/-- Method `TaskManager.save_state`: `json.dump([task.__dict__ for task in
self.tasks], file)`.  The write target is abstracted away; the result is the
data written, or the `TypeError` that `json.dump` raises when some value is
not JSON serializable. -/
def save_state (tm : TaskManager) : Except PyErr (List (List (String × PyVal))) :=
  let dicts := tm.tasks.map Task.toDictVal
  if dicts.all (fun d => d.all (fun kv => jsonable kv.2)) then .ok dicts
  else .error .typeError

end TaskManager

/-- The keyword parameters accepted by `Task.__init__`. -/
def taskInitParams : List String :=
  ["id", "description", "priority", "deadline", "dependencies"]

/-- Call `Task(**task_data)`: Python raises `TypeError` when a keyword is not a
parameter of `Task.__init__` or a required parameter is missing.  Value
decoding back into the typed model also yields `TypeError` on a type that
`__init__`'s body could not take; on round-trip data this is never reached,
because every saved `__dict__` contains the unexpected keyword `status`. -/
def taskFromKwargs (kwargs : List (String × PyVal)) : Except PyErr Task :=
  if kwargs.all (fun kv => taskInitParams.contains kv.1) then
    match kwargs.lookup "id", kwargs.lookup "description", kwargs.lookup "priority",
        kwargs.lookup "deadline" with
    | some (.vint i), some (.vstr d), some (.vint p), some dl =>
      let deadline : Except PyErr (Option String) :=
        match dl with
        | .vnone => .ok none
        | .vstr s => .ok (some s)
        | _ => .error .typeError
      let deps : Except PyErr (Option (List Task)) :=
        match kwargs.lookup "dependencies" with
        | none => .ok none
        | some (.vlist l) =>
          (l.mapM (fun (v : PyVal) => match v with
            | .vtask t => Except.ok t
            | _ => Except.error PyErr.typeError)).map some
        | some _ => .error .typeError
      do pure (Task.init i d p (← deadline) (← deps))
    | _, _, _, _ => .error .typeError
  else
    .error .typeError

namespace TaskManager

/-- Method `TaskManager.load_state`, applied to previously written data (the
`FileNotFoundError` branch is the no-data case and is not taken on a
round-trip): `for task_data in tasks: self.tasks.append(Task(**task_data))`.
A `TypeError` from `Task(**task_data)` is not caught (only
`FileNotFoundError` is) and propagates. -/
def load_state (data : List (List (String × PyVal))) : Except PyErr TaskManager := do
  let tasks ← data.mapM taskFromKwargs
  pure ⟨tasks⟩

/-- Serialize then deserialize, as on a process restart. -/
def roundTrip (tm : TaskManager) : Except PyErr TaskManager :=
  tm.save_state >>= load_state

end TaskManager

namespace AIThread

/-- One iteration of `AIThread.run` in which the queue is non-empty, with the
two `random` draws (the simulated outcome) and the measured wall time passed
in.  Mirrors the body: `pop(0)`; `is_busy = True`; the `try` block completes
the task or the `except` block routes it through `handle_errors` (which sets
status `"Error"`); the `finally` block resets `is_busy` and calls
`record_performance`.  Returns `none` when the queue is empty (the idle
branch only sleeps). -/
def runIteration (success : Bool) (elapsed : Nat) (ai : AI) : Option (AI × Task) :=
  match ai.tasks with
  | [] => none
  | task :: rest =>
    let ai1 : AI := { ai with tasks := rest, is_busy := true }
    let task1 :=
      if success then (task.setCompleted true).setStatus "Completed"
      else task.setStatus "Error"
    let ai2 : AI := { ai1 with is_busy := false }
    let ai3 := ai2.record_performance task elapsed
    some (ai3, task1)

end AIThread

/-- The global `ais` list created at module load. -/
def jexi : AI :=
  AI.init "Jexi" "Data Analyst" ["analyze data", "predictive analysis", "data cleaning", "generate reports"]

def nova : AI :=
  AI.init "Nova" "Task Executor" ["cross-platform execution", "automation", "trigger-based automation", "automated testing"]

def astra : AI :=
  AI.init "Astra" "Research & Customer Support" ["market research", "customer support", "content curation", "trend analysis"]

def sung : AI :=
  AI.init "Sung" "Project Coordinator" ["task management", "code execution", "code review", "documentation"]

def ais : List AI :=
  [jexi, nova, astra, sung]

/-- The tasks seeded when no saved state exists. -/
def task1 : Task := Task.init 1 "Analyze various datasets" 1 (some "2024-09-01") none

def task2 : Task := Task.init 2 "Execute system backup" 1 (some "2024-08-31") none

def task3 : Task := Task.init 3 "Conduct market research on competitors" 2 (some "2024-09-15") (some [task1])

def task4 : Task := Task.init 4 "Review and optimize code for security" 2 (some "2024-09-10") (some [task2])

/-- Concrete inputs used by the theorems below: a task already assigned to
`"Jexi"` whose description matches one of Nova's capabilities exactly. -/
def taskReassigned : Task :=
  Task.mk 9 "Automation" 1 none [] "Assigned" (some "Jexi") false

/-- Concrete input: a dependency-free pending task. -/
def freshTask : Task :=
  Task.init 5 "Standalone task" 1 (some "2024-09-20") none

/-- Concrete input: a pending task no capability matches. -/
def poetryTask : Task :=
  Task.init 6 "Write poetry" 3 none none

/-- Concrete input: a worker with one queued task. -/
def busyCheckAI : AI :=
  { AI.init "W" "Worker" ["cap"] with tasks := [freshTask] }

/-! ## Helper lemmas -/

theorem Task.status_setStatus (t : Task) (s : String) : (t.setStatus s).status = s := by
  cases t; rfl

theorem Task.frame_setStatus (t : Task) (s : String) :
    (t.setStatus s).id = t.id ∧ (t.setStatus s).description = t.description ∧
    (t.setStatus s).priority = t.priority ∧ (t.setStatus s).deadline = t.deadline ∧
    (t.setStatus s).dependencies = t.dependencies ∧
    (t.setStatus s).assigned_to = t.assigned_to ∧
    (t.setStatus s).is_completed = t.is_completed := by
  cases t; exact ⟨rfl, rfl, rfl, rfl, rfl, rfl, rfl⟩

theorem Task.assigned_setAssignedTo_setStatus (t : Task) (a : Option String) (s : String) :
    ((t.setAssignedTo a).setStatus s).assigned_to = a := by
  cases t; rfl

theorem enumAIs_filter_map_snd (p : AI → Bool) (n : Nat) (l : List AI) :
    ((enumAIs n l).filter (fun q => p q.2)).map Prod.snd = l.filter p := by
  induction l generalizing n with
  | nil => rfl
  | cons a l ih =>
    simp only [enumAIs, List.filter_cons]
    cases hp : p a <;> simp [hp, ih]

theorem suitableEnum_map_snd (l : List AI) (task : Task) :
    (suitableEnum l task).map Prod.snd = TaskManager.suitable_ais l task :=
  enumAIs_filter_map_snd (dispatchPred task) 0 l

theorem mem_enumAIs (n : Nat) (l : List AI) (q : Nat × AI) (hq : q ∈ enumAIs n l) :
    ∃ i, ∃ h : i < l.length, q.1 = n + i ∧ q.2 = l.get ⟨i, h⟩ := by
  induction l generalizing n with
  | nil => cases hq
  | cons a l ih =>
    simp only [enumAIs, List.mem_cons] at hq
    rcases hq with rfl | hq
    · exact ⟨0, by simp, by simp, by simp⟩
    · obtain ⟨i, h, h1, h2⟩ := ih (n + 1) hq
      exact ⟨i + 1, by simpa [Nat.succ_lt_succ_iff] using h, by omega, by simpa using h2⟩

theorem mem_suitableEnum (l : List AI) (task : Task) (q : Nat × AI)
    (hq : q ∈ suitableEnum l task) :
    dispatchPred task q.2 = true ∧ ∃ h : q.1 < l.length, l.get ⟨q.1, h⟩ = q.2 := by
  obtain ⟨hmem, hp⟩ := List.mem_filter.mp hq
  obtain ⟨i, h, h1, h2⟩ := mem_enumAIs 0 l q hmem
  refine ⟨hp, ?_⟩
  have : q.1 = i := by omega
  subst this
  exact ⟨h, h2.symm⟩

theorem suitable_eq_nil_iff_enum (l : List AI) (task : Task) :
    TaskManager.suitable_ais l task = [] ↔ suitableEnum l task = [] := by
  rw [← suitableEnum_map_snd]
  exact List.map_eq_nil_iff

theorem update_tasks_first_no_match (task_id : Int) (new_status : String) :
    ∀ tasks : List Task, (∀ t ∈ tasks, t.id ≠ task_id) →
      TaskManager.update_tasks_first tasks task_id new_status = tasks := by
  intro tasks h
  induction tasks with
  | nil => rfl
  | cons t rest ih =>
    have ht : (t.id == task_id) = false :=
      beq_eq_false_iff_ne.mpr (h t (List.mem_cons_self t rest))
    simp only [TaskManager.update_tasks_first, ht, Bool.false_eq_true, if_false]
    rw [ih (fun u hu => h u (List.mem_cons_of_mem t hu))]

theorem update_tasks_first_spec (task_id : Int) (new_status : String) :
    ∀ tasks : List Task, (∃ t ∈ tasks, t.id = task_id) →
      ∃ pre t suf, tasks = pre ++ t :: suf ∧ (∀ u ∈ pre, u.id ≠ task_id) ∧ t.id = task_id ∧
        TaskManager.update_tasks_first tasks task_id new_status
          = pre ++ t.setStatus new_status :: suf := by
  intro tasks h
  induction tasks with
  | nil => simp at h
  | cons u rest ih =>
    by_cases hu : u.id = task_id
    · refine ⟨[], u, rest, by simp, by simp, hu, ?_⟩
      simp [TaskManager.update_tasks_first, beq_iff_eq.mpr hu]
    · have hrest : ∃ t ∈ rest, t.id = task_id := by
        rcases h with ⟨t, ht, hid⟩
        rcases List.mem_cons.mp ht with rfl | ht'
        · exact absurd hid hu
        · exact ⟨t, ht', hid⟩
      obtain ⟨pre, t, suf, hsplit, hpre, hid, heq⟩ := ih hrest
      refine ⟨u :: pre, t, suf, by simp [hsplit], ?_, hid, ?_⟩
      · intro v hv
        rcases List.mem_cons.mp hv with rfl | hv'
        · exact hu
        · exact hpre v hv'
      · simp [TaskManager.update_tasks_first, beq_eq_false_iff_ne.mpr hu, heq]

/-! ## Claim theorems -/

/-- C1: the candidate set `assign_task` computes is NOT the spec's
case-insensitive-substring candidate set.  On the program's own data: Astra
is idle and has the capability "market research", a substring of the pending
task's description "Conduct market research on competitors", yet
`suitable_ais` is empty, because `task.description.lower() in
ai.capabilities` is list membership (whole-string equality), not substring
containment.  In fact none of the four seeded tasks ever has a candidate. -/
theorem suitable_ais_is_membership_not_substring :
    task3.status = "Pending" ∧ astra.is_busy = false ∧
    TaskManager.suitable_ais ais task3 = [] ∧
    candidate_spec ais task3 = [astra] ∧
    ([task1, task2, task3, task4].all
      (fun t => (TaskManager.suitable_ais ais t).isEmpty)) = true :=
  ⟨rfl, rfl, rfl, rfl, rfl⟩

/-- C2: `dynamic_prioritization` never sets any priority: for a pending task
with a deadline it evaluates `time.strptime(...) - time.localtime()`, and
`time.struct_time` supports no subtraction, so the call raises `TypeError`
(for every current time) instead of assigning priority 1 or 2. -/
theorem dynamic_prioritization_raises (now : StructTime) :
    task1.status = "Pending" ∧ task1.deadline = some "2024-09-01" ∧
    TaskManager.dynamic_prioritization now ⟨[task1]⟩ = .error .typeError :=
  ⟨rfl, rfl, rfl⟩

/-- C3: the save/load round-trip reconstructs nothing.  For a dependency-free
task, `save_state` writes the full `__dict__` (including the key "status"),
and `load_state`'s `Task(**task_data)` then raises `TypeError` because
`Task.__init__` accepts no `status` keyword; for a task with a non-empty
dependency list, `save_state` itself raises `TypeError` because `json.dump`
cannot serialize `Task` objects. -/
theorem roundTrip_raises :
    TaskManager.roundTrip ⟨[freshTask]⟩ = .error .typeError ∧
    TaskManager.save_state ⟨[freshTask]⟩ =
      .ok [[("id", .vint 5), ("description", .vstr "Standalone task"),
            ("priority", .vint 1), ("deadline", .vstr "2024-09-20"),
            ("dependencies", .vlist []), ("status", .vstr "Pending"),
            ("assigned_to", .vnone), ("is_completed", .vbool false)]] ∧
    taskFromKwargs freshTask.toDictVal = .error .typeError ∧
    TaskManager.save_state ⟨[task3]⟩ = .error .typeError :=
  ⟨rfl, rfl, rfl, rfl⟩

/-- C4 counterexample: `assign_task` never looks at the task's status.
`taskReassigned` has status "Assigned" and is already assigned to "Jexi",
yet calling `assign_task` on it with the idle, capability-matching worker
Nova changes its assigned-worker reference (to "Nova") and appends it to
Nova's queue — refuting "the task's assigned-worker reference and status are
unchanged and no worker's queue receives the task". -/
theorem assign_task_reassigns_assigned_task :
    taskReassigned.status = "Assigned" ∧
    taskReassigned.assigned_to = some "Jexi" ∧
    ¬ ((TaskManager.assign_task 0 [nova] taskReassigned).task.assigned_to
          = taskReassigned.assigned_to ∧
       (TaskManager.assign_task 0 [nova] taskReassigned).ais = [nova]) :=
  ⟨rfl, rfl, fun h => absurd h.1 (by decide)⟩

/-- C4 (amended): `assign_task` ignores the task's status.  For a task whose
status is "Assigned", "Completed" or "Error" it leaves the task and the
worker list unchanged when the task is not dependency-ready or its candidate
set is empty; but when the task is dependency-ready and the candidate set is
non-empty it reassigns the task: it sets the assigned-worker reference to
some candidate's name, sets status "Assigned", and appends the task to that
worker's queue.  At-most-one-assignment therefore rests solely on the
orchestration loop calling `assign_task` only on "Pending" tasks. -/
theorem assign_task_ignores_status (r : Nat) (l : List AI) (task : Task)
    (hst : task.status = "Assigned" ∨ task.status = "Completed" ∨ task.status = "Error") :
    ((task.is_ready_to_execute = false ∨ TaskManager.suitable_ais l task = []) →
        TaskManager.assign_task r l task = ⟨task, l⟩) ∧
    (task.is_ready_to_execute = true → TaskManager.suitable_ais l task ≠ [] →
      ∃ w ∈ TaskManager.suitable_ais l task,
        (TaskManager.assign_task r l task).task.status = "Assigned" ∧
        (TaskManager.assign_task r l task).task.assigned_to = some w.name ∧
        ∃ j, j < l.length ∧
          ((TaskManager.assign_task r l task).ais.getD j dummyAI).tasks
            = (l.getD j dummyAI).tasks ++ [(TaskManager.assign_task r l task).task]) := by
  constructor
  · intro h
    have hguard : (!(TaskManager.suitable_ais l task).isEmpty && task.is_ready_to_execute) = false := by
      rcases h with h | h
      · simp [h]
      · simp [h]
    simp only [TaskManager.assign_task, hguard, Bool.false_eq_true, if_false]
  · intro hready hne
    have hemp : (TaskManager.suitable_ais l task).isEmpty = false := by
      cases hi : (TaskManager.suitable_ais l task).isEmpty
      · rfl
      · exact absurd (List.isEmpty_iff.mp hi) hne
    have hguard : (!(TaskManager.suitable_ais l task).isEmpty && task.is_ready_to_execute) = true := by
      rw [hemp, hready]; rfl
    have hse_ne : suitableEnum l task ≠ [] := fun hnil =>
      hne ((suitable_eq_nil_iff_enum l task).mpr hnil)
    have hlen : 0 < (suitableEnum l task).length := List.length_pos.mpr hse_ne
    have hidx : r % (suitableEnum l task).length < (suitableEnum l task).length :=
      Nat.mod_lt r hlen
    set q := (suitableEnum l task).getD (r % (suitableEnum l task).length) (0, dummyAI) with hqdef
    have hq_get : q = (suitableEnum l task).get ⟨r % (suitableEnum l task).length, hidx⟩ := by
      rw [hqdef]; simp [List.getD_eq_getElem, List.get_eq_getElem, hidx]
    have hq_mem : q ∈ suitableEnum l task := by
      rw [hq_get]; exact List.get_mem _ _ _
    obtain ⟨hpred, hj, hget⟩ := mem_suitableEnum l task q hq_mem
    have hres : TaskManager.assign_task r l task =
        ⟨(task.setAssignedTo (some q.2.name)).setStatus "Assigned",
         l.set q.1 { q.2 with
            tasks := q.2.tasks ++ [(task.setAssignedTo (some q.2.name)).setStatus "Assigned"] }⟩ := by
      simp only [TaskManager.assign_task, hguard, if_true, ← hqdef]
    have hw_mem : q.2 ∈ TaskManager.suitable_ais l task := by
      have hl : q.2 ∈ l := hget ▸ List.get_mem l q.1 hj
      simp only [TaskManager.suitable_ais, List.mem_filter]
      exact ⟨hl, hpred⟩
    refine ⟨q.2, hw_mem, ?_, ?_, q.1, hj, ?_⟩
    · rw [hres]; exact Task.status_setStatus _ _
    · rw [hres]; exact Task.assigned_setAssignedTo_setStatus _ _ _
    · rw [hres]
      have hset_len : q.1 < (l.set q.1 { q.2 with
          tasks := q.2.tasks ++ [(task.setAssignedTo (some q.2.name)).setStatus "Assigned"] }).length := by
        simpa using hj
      rw [List.getD_eq_getElem _ _ hset_len, List.getD_eq_getElem _ _ hj]
      simp only [List.getElem_set_self]
      have hge : l[q.1] = q.2 := by simpa [List.get_eq_getElem] using hget
      rw [hge]

/-- C4 witness: the amended theorem applied at the concrete reassignment
input (status "Assigned", already assigned to "Jexi", Nova idle and
matching). -/
theorem assign_task_ignores_status_witness :
    ((taskReassigned.is_ready_to_execute = false ∨
        TaskManager.suitable_ais [nova] taskReassigned = []) →
      TaskManager.assign_task 0 [nova] taskReassigned = ⟨taskReassigned, [nova]⟩) ∧
    (taskReassigned.is_ready_to_execute = true →
      TaskManager.suitable_ais [nova] taskReassigned ≠ [] →
      ∃ w ∈ TaskManager.suitable_ais [nova] taskReassigned,
        (TaskManager.assign_task 0 [nova] taskReassigned).task.status = "Assigned" ∧
        (TaskManager.assign_task 0 [nova] taskReassigned).task.assigned_to = some w.name ∧
        ∃ j, j < ([nova] : List AI).length ∧
          ((TaskManager.assign_task 0 [nova] taskReassigned).ais.getD j dummyAI).tasks
            = (([nova] : List AI).getD j dummyAI).tasks
                ++ [(TaskManager.assign_task 0 [nova] taskReassigned).task]) :=
  assign_task_ignores_status 0 [nova] taskReassigned (Or.inl rfl)

/-- C5: `is_ready_to_execute` is true exactly when every dependency's
completion flag is true, and in particular is true when the dependency list
is empty. -/
theorem is_ready_iff_all_deps_completed (t : Task) :
    (t.is_ready_to_execute = true ↔ ∀ dep ∈ t.dependencies, dep.is_completed = true) ∧
    (t.dependencies = [] → t.is_ready_to_execute = true) := by
  constructor
  · simp [Task.is_ready_to_execute, List.all_eq_true]
  · intro h
    simp [Task.is_ready_to_execute, h]

/-- C5 witness: the characterisation applied to a concrete dependency-free
task. -/
theorem is_ready_iff_all_deps_completed_witness :
    (poetryTask.is_ready_to_execute = true ↔
      ∀ dep ∈ poetryTask.dependencies, dep.is_completed = true) ∧
    (poetryTask.dependencies = [] → poetryTask.is_ready_to_execute = true) :=
  is_ready_iff_all_deps_completed poetryTask

/-- C6: for a "Pending" task that is not dependency-ready or has an empty
candidate set, `assign_task` leaves the task (status still "Pending",
assigned-worker reference intact) and every worker's queue unchanged. -/
theorem assign_task_pending_no_candidate_or_unready (r : Nat) (l : List AI) (task : Task)
    (hp : task.status = "Pending")
    (h : task.is_ready_to_execute = false ∨ TaskManager.suitable_ais l task = []) :
    (TaskManager.assign_task r l task).task = task ∧
    (TaskManager.assign_task r l task).task.status = "Pending" ∧
    (TaskManager.assign_task r l task).task.assigned_to = task.assigned_to ∧
    (TaskManager.assign_task r l task).ais = l := by
  have hguard : (!(TaskManager.suitable_ais l task).isEmpty && task.is_ready_to_execute) = false := by
    rcases h with h | h
    · simp [h]
    · simp [h]
  have hres : TaskManager.assign_task r l task = ⟨task, l⟩ := by
    simp only [TaskManager.assign_task, hguard, Bool.false_eq_true, if_false]
  rw [hres]
  exact ⟨rfl, hp, rfl, rfl⟩

/-- C6 witness: a pending task no capability matches, against the idle worker
Jexi. -/
theorem assign_task_pending_no_candidate_witness :
    (TaskManager.assign_task 0 [jexi] poetryTask).task = poetryTask ∧
    (TaskManager.assign_task 0 [jexi] poetryTask).task.status = "Pending" ∧
    (TaskManager.assign_task 0 [jexi] poetryTask).task.assigned_to = poetryTask.assigned_to ∧
    (TaskManager.assign_task 0 [jexi] poetryTask).ais = [jexi] :=
  assign_task_pending_no_candidate_or_unready 0 [jexi] poetryTask rfl (Or.inr rfl)

/-- C7: every execution-loop iteration that dequeues a task ends with the
worker's busy flag false and appends exactly one (task description, elapsed
duration) entry to the worker's performance record, for both the success and
the failure outcome (quantified over `success`). -/
theorem run_iteration_resets_busy_and_records (success : Bool) (elapsed : Nat) (ai : AI)
    (t : Task) (rest : List Task) (hq : ai.tasks = t :: rest) :
    ∃ res : AI × Task, AIThread.runIteration success elapsed ai = some res ∧
      res.1.is_busy = false ∧
      res.1.performance_record = ai.performance_record ++ [(t.description, elapsed)] ∧
      res.1.tasks = rest := by
  simp only [AIThread.runIteration, hq]
  exact ⟨_, rfl, rfl, rfl, rfl⟩

/-- C7 witness: the guarantee applied on the failure outcome to a concrete
worker with one queued task. -/
theorem run_iteration_resets_busy_witness :
    ∃ res : AI × Task, AIThread.runIteration false 3 busyCheckAI = some res ∧
      res.1.is_busy = false ∧
      res.1.performance_record = busyCheckAI.performance_record ++ [(freshTask.description, 3)] ∧
      res.1.tasks = [] :=
  run_iteration_resets_busy_and_records false 3 busyCheckAI freshTask [] rfl

/-- C8: the prioritizer the claim describes never completes a run.  On any
collection containing a "Pending" task with a deadline,
`dynamic_prioritization` raises `TypeError` (struct_time subtraction), on the
first run and again on a second run, so there is no resulting collection:
the claimed idempotence holds only vacuously, because the operation never
updates a priority. -/
theorem dynamic_prioritization_twice_raises (now : StructTime) :
    TaskManager.dynamic_prioritization now ⟨[task2]⟩ = .error .typeError ∧
    (TaskManager.dynamic_prioritization now ⟨[task2]⟩).bind
        (TaskManager.dynamic_prioritization now) = .error .typeError :=
  ⟨rfl, rfl⟩

/-- C9: when no task in the collection has the given id, `update_task_status`
is a no-op on the whole collection; the loop simply finds no match, and the
operation is total (no exception path exists in its body). -/
theorem update_task_status_unknown_id (tasks : List Task) (task_id : Int) (new_status : String)
    (h : ∀ t ∈ tasks, t.id ≠ task_id) :
    TaskManager.update_task_status ⟨tasks⟩ task_id new_status = ⟨tasks⟩ := by
  simp only [TaskManager.update_task_status]
  rw [update_tasks_first_no_match task_id new_status tasks h]

/-- C9 witness: updating an id absent from a concrete collection. -/
theorem update_task_status_unknown_id_witness :
    TaskManager.update_task_status ⟨[task1, task2]⟩ 99 "Completed" = ⟨[task1, task2]⟩ :=
  update_task_status_unknown_id [task1, task2] 99 "Completed" (by
    intro t ht
    rcases List.mem_cons.mp ht with rfl | ht'
    · decide
    · rcases List.mem_cons.mp ht' with rfl | ht''
      · decide
      · cases ht'')

/-- C10: when some task has the given id, `update_task_status` rewrites only
the status field of the first matching task (every earlier task has a
different id), leaves every other field of that task and every other task
(later duplicates included, which sit untouched in `suf`) unchanged, and
leaves all workers unchanged. -/
theorem update_task_status_first_match (tasks : List Task) (l : List AI)
    (task_id : Int) (new_status : String)
    (h : ∃ t ∈ tasks, t.id = task_id) :
    (SysState.update_task_status ⟨⟨tasks⟩, l⟩ task_id new_status).ais = l ∧
    ∃ pre t suf, tasks = pre ++ t :: suf ∧ (∀ u ∈ pre, u.id ≠ task_id) ∧ t.id = task_id ∧
      SysState.update_task_status ⟨⟨tasks⟩, l⟩ task_id new_status
        = ⟨⟨pre ++ t.setStatus new_status :: suf⟩, l⟩ ∧
      (t.setStatus new_status).status = new_status ∧
      (t.setStatus new_status).id = t.id ∧
      (t.setStatus new_status).description = t.description ∧
      (t.setStatus new_status).priority = t.priority ∧
      (t.setStatus new_status).deadline = t.deadline ∧
      (t.setStatus new_status).dependencies = t.dependencies ∧
      (t.setStatus new_status).assigned_to = t.assigned_to ∧
      (t.setStatus new_status).is_completed = t.is_completed := by
  refine ⟨rfl, ?_⟩
  obtain ⟨pre, t, suf, hsplit, hpre, hid, heq⟩ := update_tasks_first_spec task_id new_status tasks h
  obtain ⟨f1, f2, f3, f4, f5, f6, f7⟩ := Task.frame_setStatus t new_status
  refine ⟨pre, t, suf, hsplit, hpre, hid, ?_, Task.status_setStatus t new_status,
    f1, f2, f3, f4, f5, f6, f7⟩
  simp only [SysState.update_task_status, TaskManager.update_task_status, heq]

/-- C10 witness: a concrete collection with a duplicated id; only the first
task with id 1 is touched. -/
theorem update_task_status_first_match_witness :
    (SysState.update_task_status ⟨⟨[task2, task1, task1]⟩, ais⟩ 1 "Completed").ais = ais ∧
    ∃ pre t suf, [task2, task1, task1] = pre ++ t :: suf ∧ (∀ u ∈ pre, u.id ≠ 1) ∧ t.id = 1 ∧
      SysState.update_task_status ⟨⟨[task2, task1, task1]⟩, ais⟩ 1 "Completed"
        = ⟨⟨pre ++ t.setStatus "Completed" :: suf⟩, ais⟩ ∧
      (t.setStatus "Completed").status = "Completed" ∧
      (t.setStatus "Completed").id = t.id ∧
      (t.setStatus "Completed").description = t.description ∧
      (t.setStatus "Completed").priority = t.priority ∧
      (t.setStatus "Completed").deadline = t.deadline ∧
      (t.setStatus "Completed").dependencies = t.dependencies ∧
      (t.setStatus "Completed").assigned_to = t.assigned_to ∧
      (t.setStatus "Completed").is_completed = t.is_completed :=
  update_task_status_first_match [task2, task1, task1] ais 1 "Completed"
    ⟨task1, by simp, by decide⟩

end Main
